import Mathlib

/-!
Shallow embedding of the sun-plant hit-test core of the
SunHitsIndoorPlant3DSimulator repository, together with theorems settling the
claims about its natural-language specification.

The embedded modules are:
* `core/geometry.py`   — angle/vector conversions (`sun_direction_from_angles`,
  `angles_from_sun_direction`, `normalize`, `sun_direction_simplified`);
* `core/models.py`     — `Window`, `Plant`, `HitResult` value objects;
* `core/ray_casting.py` — `intersect_axis_aligned_plane`,
  `ray_window_intersection`, `ray_intersects_window`;
* `core/hit_test.py`   — `generate_plant_sample_points`, `check_sun_hits_plant`,
  `get_detailed_hit_info`.

Python floats are modelled as exact real numbers; `math.atan2 y x` is modelled
as the principal argument of the complex number `x + y*I`, which has the same
range `(-π, π]` and the same value `0` at the origin.  Python exceptions are
modelled with `Except`.
-/

open Real

namespace SunSim

noncomputable section

/-- Model of `math.radians`. -/
def radians (deg : ℝ) : ℝ := deg * π / 180

/-- Model of `math.degrees`. -/
def degrees (rad : ℝ) : ℝ := rad * 180 / π

/-- Model of `math.atan2 y x`: the angle of the point `(x, y)` in `(-π, π]`,
with `atan2 0 0 = 0`. -/
def atan2 (y x : ℝ) : ℝ := Complex.arg (x + y * Complex.I)

/-- A 3-component vector of reals, modelling the `np.array([x, y, z])` values
used throughout the core. -/
structure Vec3 where
  x : ℝ
  y : ℝ
  z : ℝ

namespace Vec3

/-- Componentwise addition (`np.ndarray` `+`). -/
def add (a b : Vec3) : Vec3 := ⟨a.x + b.x, a.y + b.y, a.z + b.z⟩

/-- Scalar multiplication (`t * direction`). -/
def smul (c : ℝ) (v : Vec3) : Vec3 := ⟨c * v.x, c * v.y, c * v.z⟩

/-- Numpy-style indexing `v[i]` with `0 ↦ x`, `1 ↦ y`, `2 ↦ z`. -/
def coord (v : Vec3) : ℕ → ℝ
  | 0 => v.x
  | 1 => v.y
  | _ => v.z

end Vec3

/-- Model of `np.dot` on 3-vectors. -/
def dot3 (a b : Vec3) : ℝ := a.x * b.x + a.y * b.y + a.z * b.z

/-- Model of `np.linalg.norm` on 3-vectors. -/
def vec_norm (v : Vec3) : ℝ := Real.sqrt (v.x * v.x + v.y * v.y + v.z * v.z)

/-- `geometry.sun_direction_from_angles`: unit vector toward the sun in
East-North-Up coordinates. -/
def sun_direction_from_angles (azimuth_deg elevation_deg : ℝ) : Vec3 :=
  let az_rad := radians azimuth_deg
  let el_rad := radians elevation_deg
  ⟨Real.cos el_rad * Real.sin az_rad,
   Real.cos el_rad * Real.cos az_rad,
   Real.sin el_rad⟩

/-- `geometry.angles_from_sun_direction`: inverse conversion, azimuth
normalized into `[0, 360)`. -/
def angles_from_sun_direction (direction : Vec3) : ℝ × ℝ :=
  let horizontal_distance := Real.sqrt (direction.x * direction.x + direction.y * direction.y)
  let elevation_deg := degrees (atan2 direction.z horizontal_distance)
  let azimuth_raw := degrees (atan2 direction.x direction.y)
  let azimuth_deg := if azimuth_raw < 0 then azimuth_raw + 360 else azimuth_raw
  (azimuth_deg, elevation_deg)

/-- `geometry.normalize`: unit vector, or a `ValueError` for near-zero input. -/
def normalize (v : Vec3) : Except String Vec3 :=
  if vec_norm v < 1e-10 then Except.error "Cannot normalize zero-length vector"
  else Except.ok ⟨v.x / vec_norm v, v.y / vec_norm v, v.z / vec_norm v⟩

/-- `geometry.sun_direction_simplified`: rotate the real-world azimuth into the
simplified axis-aligned frame (wall 1 normal pinned to 180°), then convert. -/
def sun_direction_simplified (sun_azimuth_deg sun_elevation_deg : ℝ)
    (wall1_normal_azimuth : ℝ := 210) : Vec3 :=
  let rotation := wall1_normal_azimuth - 180
  let simplified_azimuth := sun_azimuth_deg - rotation
  sun_direction_from_angles simplified_azimuth sun_elevation_deg

/-- `models.Window`: a rectangular opening on a wall. -/
structure Window where
  id : String
  center : Vec3
  width : ℝ
  height : ℝ
  wall_normal_azimuth : ℝ
  wall_thickness : ℝ := 0
  axis : Option String := none

/-- `Window.normal` property: outward-facing horizontal normal from azimuth. -/
def Window.normal (w : Window) : Vec3 :=
  ⟨Real.sin (radians w.wall_normal_azimuth), Real.cos (radians w.wall_normal_azimuth), 0⟩

/-- `models.Plant`: a vertical cylinder. -/
structure Plant where
  center_x : ℝ
  center_y : ℝ
  radius : ℝ
  z_min : ℝ
  z_max : ℝ

/-- `models.HitResult`: result of a sun-plant hit test. -/
structure HitResult where
  is_hit : Bool
  window_id : Option String := none
  hit_points : List Vec3 := []
  sun_direction : Option Vec3 := none
  reason : Option String := none

/-- `ray_casting.RayIntersection`: result of a ray-window intersection test. -/
structure RayIntersection where
  intersects : Bool
  point : Option Vec3 := none
  t : Option ℝ := none
  local_h : Option ℝ := none
  local_v : Option ℝ := none

/-- `ray_casting._intersect_axis_aligned_plane`: intersect a ray with an
axis-aligned plane and check the window's rectangular bounds. -/
def intersect_axis_aligned_plane (ray_origin ray_direction : Vec3)
    (plane_axis : ℕ) (plane_coord : ℝ) (window : Window)
    (epsilon : ℝ := 1e-10) : RayIntersection :=
  if |ray_direction.coord plane_axis| < epsilon then ⟨false, none, none, none, none⟩
  else
    let t := (plane_coord - ray_origin.coord plane_axis) / ray_direction.coord plane_axis
    if t < 0 then ⟨false, none, none, none, none⟩
    else
      let intersection := ray_origin.add (Vec3.smul t ray_direction)
      let local_h :=
        if plane_axis = 1 then intersection.x - window.center.x
        else intersection.y - window.center.y
      let local_v := intersection.z - window.center.z
      if |local_h| ≤ window.width / 2 + epsilon ∧ |local_v| ≤ window.height / 2 + epsilon then
        ⟨true, some intersection, some t, some local_h, some local_v⟩
      else
        ⟨false, some intersection, some t, some local_h, some local_v⟩

/-- The plane-axis selection of `ray_casting.ray_window_intersection`: the
explicit `axis` tag if present, otherwise the magnitude heuristic on the
window center. -/
def window_plane_axis (window : Window) : ℕ :=
  if window.axis = some "x" then 1
  else if window.axis = some "y" then 0
  else if |window.center.y| < |window.center.x| then 1 else 0

/-- `ray_casting.ray_window_intersection`: full intersection test, with the
sun-side check, thin-plane model for `wall_thickness ≤ 0` and the two-plane
tunnel model otherwise. -/
def ray_window_intersection (ray_origin ray_direction : Vec3) (window : Window)
    (epsilon : ℝ := 1e-10) : RayIntersection :=
  if dot3 ray_direction window.normal ≤ 0 then ⟨false, none, none, none, none⟩
  else
    let plane_axis := window_plane_axis window
    let inner_plane_coord := window.center.coord plane_axis
    if window.wall_thickness ≤ 0 then
      intersect_axis_aligned_plane ray_origin ray_direction plane_axis inner_plane_coord
        window epsilon
    else
      let outer_plane_coord := inner_plane_coord - window.wall_thickness
      let inner_result := intersect_axis_aligned_plane ray_origin ray_direction plane_axis
        inner_plane_coord window epsilon
      let outer_result := intersect_axis_aligned_plane ray_origin ray_direction plane_axis
        outer_plane_coord window epsilon
      if inner_result.intersects && outer_result.intersects then inner_result
      else ⟨false, none, none, none, none⟩

/-- `ray_casting.ray_intersects_window`: boolean wrapper. -/
def ray_intersects_window (ray_origin ray_direction : Vec3) (window : Window)
    (epsilon : ℝ := 1e-10) : Bool :=
  (ray_window_intersection ray_origin ray_direction window epsilon).intersects

/-- The per-row height of `hit_test.generate_plant_sample_points`:
evenly spaced when `n_vertical > 1`, the mid-height otherwise. -/
def grid_z (plant : Plant) (n_vertical j : ℕ) : ℝ :=
  if 1 < n_vertical then
    plant.z_min + (plant.z_max - plant.z_min) * j / ((n_vertical : ℝ) - 1)
  else (plant.z_min + plant.z_max) / 2

/-- A single grid point of `hit_test.generate_plant_sample_points`. -/
def grid_point (plant : Plant) (n_angular n_vertical i j : ℕ) : Vec3 :=
  let angle := 2 * π * i / n_angular
  ⟨plant.center_x + plant.radius * Real.cos angle,
   plant.center_y + plant.radius * Real.sin angle,
   grid_z plant n_vertical j⟩

/-- `hit_test.generate_plant_sample_points`: the angular-major, vertical-minor
grid on the cylinder surface followed by the top-center and mid-height-center
points. -/
def generate_plant_sample_points (plant : Plant)
    (n_angular : ℕ := 8) (n_vertical : ℕ := 3) : List Vec3 :=
  ((List.range n_angular).flatMap fun i =>
    (List.range n_vertical).map fun j => grid_point plant n_angular n_vertical i j)
  ++ [⟨plant.center_x, plant.center_y, plant.z_max⟩,
      ⟨plant.center_x, plant.center_y, (plant.z_min + plant.z_max) / 2⟩]

/-- The per-point / per-window scan of `hit_test.check_sun_hits_plant`:
returns the list of hit points (in sample order) and the id of the window
credited for the first hit point, if any.  A point is credited to its first
matching window and further windows are not consulted for it. -/
def hit_scan (sun_dir : Vec3) (windows : List Window) : List Vec3 → List Vec3 × Option String
  | [] => ([], none)
  | point :: rest =>
    let tail := hit_scan sun_dir windows rest
    match windows.find? (fun w => ray_intersects_window point sun_dir w) with
    | some w => (point :: tail.1, some w.id)
    | none => tail

/-- `hit_test.check_sun_hits_plant`: the hit-test orchestrator. -/
def check_sun_hits_plant (sun_azimuth_deg sun_elevation_deg : ℝ)
    (plant : Plant) (windows : List Window)
    (n_angular : ℕ := 8) (n_vertical : ℕ := 3)
    (wall1_normal_azimuth : ℝ := 210) : HitResult :=
  if sun_elevation_deg ≤ 0 then
    { is_hit := false, reason := some "sun_below_horizon" }
  else
    let sun_dir := sun_direction_simplified sun_azimuth_deg sun_elevation_deg
      wall1_normal_azimuth
    let sample_points := generate_plant_sample_points plant n_angular n_vertical
    let scan := hit_scan sun_dir windows sample_points
    if scan.1.isEmpty then
      { is_hit := false, sun_direction := some sun_dir, reason := some "no_window_path" }
    else
      { is_hit := true, window_id := scan.2, hit_points := scan.1,
        sun_direction := some sun_dir }

/-- The fields of the dictionary returned by `hit_test.get_detailed_hit_info`
that the claims are about (`is_hit`, `window_id`, `reason`); an absent
dictionary key is modelled as `none`. -/
structure DetailedHitInfo where
  is_hit : Bool
  window_id : Option String := none
  reason : Option String := none

/-- The per-point / per-window scan of `hit_test.get_detailed_hit_info`:
`any_hit` together with the first hit window.  The per-window test is
`ray_window_intersection(point, sun_dir, window).intersects` at the default
epsilon, i.e. `ray_intersects_window`.  Unlike `hit_scan` it has no early
exit, but it records the same first window of the same first hit point. -/
def detail_scan (sun_dir : Vec3) (windows : List Window) : List Vec3 → Bool × Option String
  | [] => (false, none)
  | point :: rest =>
    let tail := detail_scan sun_dir windows rest
    match windows.find? (fun w => ray_intersects_window point sun_dir w) with
    | some w => (true, some w.id)
    | none => tail

/-- `hit_test.get_detailed_hit_info`, restricted to the modelled fields.  Note
that it computes the sun direction with `sun_direction_from_angles`, without
the simplified-frame rotation. -/
def get_detailed_hit_info (sun_azimuth_deg sun_elevation_deg : ℝ)
    (plant : Plant) (windows : List Window)
    (n_angular : ℕ := 8) (n_vertical : ℕ := 3) : DetailedHitInfo :=
  if sun_elevation_deg ≤ 0 then
    { is_hit := false, reason := some "sun_below_horizon" }
  else
    let sun_dir := sun_direction_from_angles sun_azimuth_deg sun_elevation_deg
    let sample_points := generate_plant_sample_points plant n_angular n_vertical
    let scan := detail_scan sun_dir windows sample_points
    { is_hit := scan.1, window_id := scan.2 }

/-! ### Helper lemmas -/

/-- The sun-side check: a ray whose direction does not oppose the inside of
the wall (`dot ≤ 0`) is rejected before any plane test. -/
lemma intersects_false_of_sunside_nonpos {o d : Vec3} {w : Window} {ε : ℝ}
    (h : dot3 d w.normal ≤ 0) :
    (ray_window_intersection o d w ε).intersects = false := by
  rw [ray_window_intersection, if_pos h]

/-- A straight-up ray has zero dot product with every (horizontal) window
normal, hence never intersects. -/
lemma up_ray_no_intersection (o : Vec3) (w : Window) (ε : ℝ) :
    (ray_window_intersection o ⟨0, 0, 1⟩ w ε).intersects = false := by
  refine intersects_false_of_sunside_nonpos ?_
  simp [dot3, Window.normal]

/-- A window whose outward normal azimuth is 180° has normal `(0, -1, 0)`. -/
lemma normal_of_azimuth_180 {w : Window} (h : w.wall_normal_azimuth = 180) :
    w.normal = ⟨0, -1, 0⟩ := by
  have hrad : radians 180 = π := by rw [radians]; ring
  rw [Window.normal, h, hrad]
  simp

/-- If no sample point is illuminated through any window then the scan of
`check_sun_hits_plant` yields no hit points and no credited window. -/
lemma hit_scan_eq_nil {dir : Vec3} {ws : List Window}
    (h : ∀ p w, ray_intersects_window p dir w = false) :
    ∀ pts : List Vec3, hit_scan dir ws pts = ([], none)
  | [] => rfl
  | p :: rest => by
    rw [hit_scan, List.find?_eq_none.mpr fun w _ => by simp [h]]
    simp [hit_scan_eq_nil h rest]

/-- If no sample point is illuminated, the orchestrator reports
`no_window_path`. -/
lemma check_eq_no_window_path (az el : ℝ) (plant : Plant) (windows : List Window)
    (na nv : ℕ) (w1 : ℝ) (hel : ¬ el ≤ 0)
    (h : ∀ p w, ray_intersects_window p (sun_direction_simplified az el w1) w = false) :
    check_sun_hits_plant az el plant windows na nv w1 =
      { is_hit := false, sun_direction := some (sun_direction_simplified az el w1),
        reason := some "no_window_path" } := by
  rw [check_sun_hits_plant, if_neg hel]
  simp only [hit_scan_eq_nil h]
  rfl

/-! ### Claim theorems -/

/-- C1: for every plant, openings list, azimuth and sampling resolution, if
`sun_elevation_deg ≤ 0` then `check_sun_hits_plant` returns the constant
`HitResult` with `is_hit = false` and `reason = "sun_below_horizon"`,
independent of the openings and of the sample-point parameters (terminal
state). -/
theorem horizon_gate_terminal (az el : ℝ) (plant : Plant) (windows : List Window)
    (n_angular n_vertical : ℕ) (w1 : ℝ) (h : el ≤ 0) :
    check_sun_hits_plant az el plant windows n_angular n_vertical w1 =
      { is_hit := false, window_id := none, hit_points := [],
        sun_direction := none, reason := some "sun_below_horizon" } := by
  rw [check_sun_hits_plant, if_pos h]

/-- Witness for C1 at a concrete input. -/
theorem horizon_gate_terminal_witness :
    (-10 : ℝ) ≤ 0 ∧
    check_sun_hits_plant 180 (-10) ⟨0, 0, 1, 0, 2⟩
        [⟨"w", ⟨0, 0, 1⟩, 2, 2, 180, 0, none⟩] 8 3 210 =
      { is_hit := false, window_id := none, hit_points := [],
        sun_direction := none, reason := some "sun_below_horizon" } :=
  ⟨by norm_num,
   horizon_gate_terminal 180 (-10) ⟨0, 0, 1, 0, 2⟩
     [⟨"w", ⟨0, 0, 1⟩, 2, 2, 180, 0, none⟩] 8 3 210 (by norm_num)⟩

/-- C5: the sun-side check — whenever the dot product of the ray direction
with the window's outward normal is ≤ 0, `ray_window_intersection` reports no
intersection; in particular a window with outward-normal azimuth 180° never
registers a hit for sun azimuth 0° at any elevation in `(0, 90]`. -/
theorem sunside_rejection :
    (∀ (o d : Vec3) (w : Window) (ε : ℝ), dot3 d w.normal ≤ 0 →
      (ray_window_intersection o d w ε).intersects = false) ∧
    (∀ el : ℝ, 0 < el → el ≤ 90 → ∀ (o : Vec3) (w : Window) (ε : ℝ),
      w.wall_normal_azimuth = 180 →
      (ray_window_intersection o (sun_direction_from_angles 0 el) w ε).intersects = false) := by
  refine ⟨fun o d w ε h => intersects_false_of_sunside_nonpos h, ?_⟩
  intro el hel0 hel90 o w ε hw
  refine intersects_false_of_sunside_nonpos ?_
  rw [normal_of_azimuth_180 hw]
  have hcos : 0 ≤ Real.cos (el * π / 180) := by
    refine Real.cos_nonneg_of_mem_Icc ⟨?_, ?_⟩
    · have : (0 : ℝ) ≤ el * π / 180 := by positivity
      linarith [Real.pi_pos]
    · rw [div_le_iff₀ (by norm_num : (0:ℝ) < 180)]
      nlinarith [Real.pi_pos]
  simp [sun_direction_from_angles, dot3, radians]
  linarith

/-- Witness for C5 at concrete inputs. -/
theorem sunside_rejection_witness :
    (dot3 ⟨0, 0, 1⟩ (Window.normal ⟨"w", ⟨0, 0, 1⟩, 2, 2, 180, 0, none⟩) ≤ 0 ∧
      (ray_window_intersection ⟨0, 0, 0⟩ ⟨0, 0, 1⟩
        ⟨"w", ⟨0, 0, 1⟩, 2, 2, 180, 0, none⟩ (1e-10)).intersects = false) ∧
    ((0 : ℝ) < 45 ∧ (45 : ℝ) ≤ 90 ∧
      (ray_window_intersection ⟨0, 0, 0⟩ (sun_direction_from_angles 0 45)
        ⟨"w", ⟨0, 0, 1⟩, 2, 2, 180, 0, none⟩ (1e-10)).intersects = false) := by
  have hd : dot3 ⟨0, 0, 1⟩ (Window.normal ⟨"w", ⟨0, 0, 1⟩, 2, 2, 180, 0, none⟩) ≤ 0 := by
    simp [dot3, Window.normal]
  exact ⟨⟨hd, sunside_rejection.1 _ _ _ _ hd⟩,
    ⟨by norm_num, by norm_num,
      sunside_rejection.2 45 (by norm_num) (by norm_num) _ _ _ rfl⟩⟩

/-- C7: at elevation 90° the sun direction in the simplified frame is the
straight-up vector, which is rejected for every (vertical, wall-mounted)
opening, so `check_sun_hits_plant` reports `is_hit = false` for every azimuth,
plant, openings list, resolution and reference wall azimuth; moreover no
individual `ray_window_intersection` ever reports an intersection for the
straight-up ray. -/
theorem zenith_never_hits (az : ℝ) (plant : Plant) (windows : List Window)
    (n_angular n_vertical : ℕ) (w1 : ℝ) :
    (check_sun_hits_plant az 90 plant windows n_angular n_vertical w1).is_hit = false ∧
    ∀ (o : Vec3) (w : Window) (ε : ℝ),
      (ray_window_intersection o ⟨0, 0, 1⟩ w ε).intersects = false := by
  have hdir : sun_direction_simplified az 90 w1 = ⟨0, 0, 1⟩ := by
    rw [sun_direction_simplified, sun_direction_from_angles]
    have h90 : radians 90 = π / 2 := by rw [radians]; ring
    simp [h90]
  refine ⟨?_, up_ray_no_intersection⟩
  have h := check_eq_no_window_path az 90 plant windows n_angular n_vertical w1
    (by norm_num) (by
      intro p w
      rw [hdir, ray_intersects_window, up_ray_no_intersection])
  rw [h]

/-- C9: `normalize` fails with the domain error exactly when the input's
magnitude is below `1e-10`, and otherwise returns the input divided by its
magnitude, which is a unit vector. -/
theorem normalize_spec (v : Vec3) :
    (normalize v = Except.error "Cannot normalize zero-length vector" ↔ vec_norm v < 1e-10) ∧
    (1e-10 ≤ vec_norm v →
      normalize v = Except.ok ⟨v.x / vec_norm v, v.y / vec_norm v, v.z / vec_norm v⟩ ∧
      vec_norm ⟨v.x / vec_norm v, v.y / vec_norm v, v.z / vec_norm v⟩ = 1) := by
  constructor
  · by_cases h : vec_norm v < 1e-10
    · simp [normalize, if_pos h, h]
    · simp [normalize, if_neg h, h]
  · intro h
    have hlt : ¬ vec_norm v < 1e-10 := not_lt.mpr h
    have hpos : 0 < vec_norm v := lt_of_lt_of_le (by norm_num) h
    refine ⟨by rw [normalize, if_neg hlt], ?_⟩
    have hne : vec_norm v ≠ 0 := ne_of_gt hpos
    have hsq : v.x * v.x + v.y * v.y + v.z * v.z = vec_norm v * vec_norm v := by
      have hnn : 0 ≤ v.x * v.x + v.y * v.y + v.z * v.z := by
        nlinarith [mul_self_nonneg v.x, mul_self_nonneg v.y, mul_self_nonneg v.z]
      rw [vec_norm]
      exact (Real.mul_self_sqrt hnn).symm
    show Real.sqrt (v.x / vec_norm v * (v.x / vec_norm v) +
      v.y / vec_norm v * (v.y / vec_norm v) + v.z / vec_norm v * (v.z / vec_norm v)) = 1
    have hquot : v.x / vec_norm v * (v.x / vec_norm v) + v.y / vec_norm v * (v.y / vec_norm v) +
        v.z / vec_norm v * (v.z / vec_norm v) =
        (v.x * v.x + v.y * v.y + v.z * v.z) / (vec_norm v * vec_norm v) := by
      rw [div_mul_div_comm, div_mul_div_comm, div_mul_div_comm, ← add_div, ← add_div]
    rw [hquot, hsq, div_self (mul_ne_zero hne hne), Real.sqrt_one]

/-- Witness for C9 at the concrete vector `(3, 0, 4)`. -/
theorem normalize_spec_witness :
    (1e-10 : ℝ) ≤ vec_norm ⟨3, 0, 4⟩ ∧
    (normalize ⟨3, 0, 4⟩ =
        Except.ok ⟨3 / vec_norm ⟨3, 0, 4⟩, 0 / vec_norm ⟨3, 0, 4⟩, 4 / vec_norm ⟨3, 0, 4⟩⟩ ∧
      vec_norm ⟨3 / vec_norm ⟨3, 0, 4⟩, 0 / vec_norm ⟨3, 0, 4⟩, 4 / vec_norm ⟨3, 0, 4⟩⟩ = 1) := by
  have h5 : vec_norm ⟨3, 0, 4⟩ = 5 := by
    rw [vec_norm]
    rw [show (3 : ℝ) * 3 + 0 * 0 + 4 * 4 = 5 ^ 2 by norm_num]
    exact Real.sqrt_sq (by norm_num)
  have h : (1e-10 : ℝ) ≤ vec_norm ⟨3, 0, 4⟩ := by rw [h5]; norm_num
  exact ⟨h, (normalize_spec ⟨3, 0, 4⟩).2 h⟩

/-- Spec-side predicate, taken from the claim's words: the ray passes through
the axis-aligned plane at coordinate `plane_coord` within the window's
width/height bounds — it is not (ε-)parallel to the plane, meets it at a
forward parameter `t ≥ 0`, and the meeting point is within `width/2 + ε`
horizontally and `height/2 + ε` vertically of the window center. -/
def passes_plane_within_bounds (o d : Vec3) (plane_axis : ℕ) (plane_coord : ℝ)
    (w : Window) (ε : ℝ) : Prop :=
  let t := (plane_coord - o.coord plane_axis) / d.coord plane_axis
  let p := o.add (Vec3.smul t d)
  let local_h := if plane_axis = 1 then p.x - w.center.x else p.y - w.center.y
  ε ≤ |d.coord plane_axis| ∧ 0 ≤ t ∧
    |local_h| ≤ w.width / 2 + ε ∧ |p.z - w.center.z| ≤ w.height / 2 + ε

/-- The per-plane test of the code is exactly the spec-side predicate. -/
lemma plane_intersects_iff (o d : Vec3) (pa : ℕ) (pc : ℝ) (w : Window) (ε : ℝ) :
    (intersect_axis_aligned_plane o d pa pc w ε).intersects = true ↔
      passes_plane_within_bounds o d pa pc w ε := by
  rw [intersect_axis_aligned_plane, passes_plane_within_bounds]
  by_cases h1 : |d.coord pa| < ε
  · simp [h1, not_le.mpr h1]
  · by_cases h2 : (pc - o.coord pa) / d.coord pa < 0
    · simp [h1, h2, not_le.mpr h2]
    · by_cases h3 : |(if pa = 1 then (o.add (Vec3.smul ((pc - o.coord pa) / d.coord pa) d)).x -
          w.center.x else (o.add (Vec3.smul ((pc - o.coord pa) / d.coord pa) d)).y -
          w.center.y)| ≤ w.width / 2 + ε ∧
          |(o.add (Vec3.smul ((pc - o.coord pa) / d.coord pa) d)).z - w.center.z| ≤
            w.height / 2 + ε
      · simp [h1, h2, h3, not_lt.mp h1, not_lt.mp h2]
      · simp only [if_neg h1, if_neg h2, if_neg h3]
        simp [h3, not_lt.mp h1, not_lt.mp h2]

/-- When the per-plane test succeeds, the reported point is on that plane. -/
lemma plane_point_of_intersects (o d : Vec3) (pa : ℕ) (pc : ℝ) (w : Window) (ε : ℝ)
    (h : (intersect_axis_aligned_plane o d pa pc w ε).intersects = true) :
    (intersect_axis_aligned_plane o d pa pc w ε).point =
      some (o.add (Vec3.smul ((pc - o.coord pa) / d.coord pa) d)) := by
  rw [intersect_axis_aligned_plane] at h ⊢
  by_cases h1 : |d.coord pa| < ε
  · simp [h1] at h
  · by_cases h2 : (pc - o.coord pa) / d.coord pa < 0
    · simp [h1, h2] at h
    · simp only [if_neg h1, if_neg h2] at h ⊢
      by_cases h3 : |(if pa = 1 then (o.add (Vec3.smul ((pc - o.coord pa) / d.coord pa) d)).x -
          w.center.x else (o.add (Vec3.smul ((pc - o.coord pa) / d.coord pa) d)).y -
          w.center.y)| ≤ w.width / 2 + ε ∧
          |(o.add (Vec3.smul ((pc - o.coord pa) / d.coord pa) d)).z - w.center.z| ≤
            w.height / 2 + ε
      · simp [h3]
      · simp [h3] at h

/-- C2 (amended): for a window with positive wall thickness, PROVIDED the
sun-side check passes (`dot(direction, normal) > 0`), `ray_window_intersection`
reports an intersection iff the ray passes within the window bounds through
BOTH the inner plane at `center[axis]` and the outer plane at
`center[axis] - wall_thickness`, and on success the reported point is the one
on the inner plane. -/
theorem tunnel_model_spec (o d : Vec3) (w : Window) (ε : ℝ)
    (hside : 0 < dot3 d w.normal) (hth : 0 < w.wall_thickness) :
    ((ray_window_intersection o d w ε).intersects = true ↔
      (passes_plane_within_bounds o d (window_plane_axis w)
          (w.center.coord (window_plane_axis w)) w ε ∧
        passes_plane_within_bounds o d (window_plane_axis w)
          (w.center.coord (window_plane_axis w) - w.wall_thickness) w ε)) ∧
    ((ray_window_intersection o d w ε).intersects = true →
      (ray_window_intersection o d w ε).point =
        some (o.add (Vec3.smul ((w.center.coord (window_plane_axis w) -
          o.coord (window_plane_axis w)) / d.coord (window_plane_axis w)) d))) := by
  rw [ray_window_intersection, if_neg (not_le.mpr hside), if_neg (not_le.mpr hth)]
  by_cases hb : (intersect_axis_aligned_plane o d (window_plane_axis w)
        (w.center.coord (window_plane_axis w)) w ε).intersects &&
      (intersect_axis_aligned_plane o d (window_plane_axis w)
        (w.center.coord (window_plane_axis w) - w.wall_thickness) w ε).intersects
  · rw [if_pos hb]
    rw [Bool.and_eq_true] at hb
    constructor
    · rw [hb.1]
      simp only [true_iff]
      exact ⟨(plane_intersects_iff _ _ _ _ _ _).mp hb.1,
        (plane_intersects_iff _ _ _ _ _ _).mp hb.2⟩
    · intro _
      exact plane_point_of_intersects _ _ _ _ _ _ hb.1
  · rw [if_neg hb]
    constructor
    · simp only [Bool.false_eq_true, false_iff]
      intro hc
      exact hb (by
        rw [Bool.and_eq_true, (plane_intersects_iff _ _ _ _ _ _),
          (plane_intersects_iff _ _ _ _ _ _)]
        exact hc)
    · intro hc
      simp at hc

/-- Counterexample for C2 as stated: a ray that passes within bounds through
BOTH inner and outer planes of a thick window but is reported as no
intersection, because the sun-side check (absent from the claim) rejects it. -/
theorem tunnel_claim_counterexample :
    (0 : ℝ) < Window.wall_thickness ⟨"t", ⟨0, 0, 1⟩, 2, 2, 180, 1/2, some "x"⟩ ∧
    passes_plane_within_bounds ⟨0, -2, 1⟩ ⟨0, 1, 0⟩
      (window_plane_axis ⟨"t", ⟨0, 0, 1⟩, 2, 2, 180, 1/2, some "x"⟩)
      (Vec3.coord (Window.center ⟨"t", ⟨0, 0, 1⟩, 2, 2, 180, 1/2, some "x"⟩)
        (window_plane_axis ⟨"t", ⟨0, 0, 1⟩, 2, 2, 180, 1/2, some "x"⟩))
      ⟨"t", ⟨0, 0, 1⟩, 2, 2, 180, 1/2, some "x"⟩ (1e-10) ∧
    passes_plane_within_bounds ⟨0, -2, 1⟩ ⟨0, 1, 0⟩
      (window_plane_axis ⟨"t", ⟨0, 0, 1⟩, 2, 2, 180, 1/2, some "x"⟩)
      (Vec3.coord (Window.center ⟨"t", ⟨0, 0, 1⟩, 2, 2, 180, 1/2, some "x"⟩)
        (window_plane_axis ⟨"t", ⟨0, 0, 1⟩, 2, 2, 180, 1/2, some "x"⟩) -
        Window.wall_thickness ⟨"t", ⟨0, 0, 1⟩, 2, 2, 180, 1/2, some "x"⟩)
      ⟨"t", ⟨0, 0, 1⟩, 2, 2, 180, 1/2, some "x"⟩ (1e-10) ∧
    (ray_window_intersection ⟨0, -2, 1⟩ ⟨0, 1, 0⟩
      ⟨"t", ⟨0, 0, 1⟩, 2, 2, 180, 1/2, some "x"⟩ (1e-10)).intersects = false := by
  have hax : window_plane_axis ⟨"t", ⟨0, 0, 1⟩, 2, 2, 180, 1/2, some "x"⟩ = 1 := by
    rw [window_plane_axis]
    simp
  refine ⟨by norm_num, ?_, ?_, ?_⟩
  · rw [hax, passes_plane_within_bounds]
    norm_num [Vec3.coord, Vec3.add, Vec3.smul]
  · rw [hax, passes_plane_within_bounds]
    norm_num [Vec3.coord, Vec3.add, Vec3.smul]
  · refine intersects_false_of_sunside_nonpos ?_
    rw [normal_of_azimuth_180 rfl]
    norm_num [dot3]

/-- Witness for the amended C2 at a concrete hitting configuration: the
hypotheses hold and the iff direction produces the concrete intersection. -/
theorem tunnel_model_spec_witness :
    (0 : ℝ) < dot3 ⟨0, -1, 0⟩ (Window.normal ⟨"t", ⟨0, 0, 1⟩, 2, 2, 180, 1/2, some "x"⟩) ∧
    (0 : ℝ) < Window.wall_thickness ⟨"t", ⟨0, 0, 1⟩, 2, 2, 180, 1/2, some "x"⟩ ∧
    (ray_window_intersection ⟨0, 2, 1⟩ ⟨0, -1, 0⟩
      ⟨"t", ⟨0, 0, 1⟩, 2, 2, 180, 1/2, some "x"⟩ (1e-10)).intersects = true := by
  have hside : (0 : ℝ) < dot3 ⟨0, -1, 0⟩
      (Window.normal ⟨"t", ⟨0, 0, 1⟩, 2, 2, 180, 1/2, some "x"⟩) := by
    rw [normal_of_azimuth_180 rfl]
    norm_num [dot3]
  have hax : window_plane_axis ⟨"t", ⟨0, 0, 1⟩, 2, 2, 180, 1/2, some "x"⟩ = 1 := by
    rw [window_plane_axis]
    simp
  refine ⟨hside, by norm_num, ?_⟩
  refine (tunnel_model_spec ⟨0, 2, 1⟩ ⟨0, -1, 0⟩ _ _ hside (by norm_num)).1.mpr ⟨?_, ?_⟩
  · rw [hax, passes_plane_within_bounds]
    norm_num [Vec3.coord, Vec3.add, Vec3.smul]
  · rw [hax, passes_plane_within_bounds]
    norm_num [Vec3.coord, Vec3.add, Vec3.smul]

/-- Length of a `flatMap` over `List.range` with constant block length. -/
lemma flatMap_range_length {α : Type} (f : ℕ → List α) (m : ℕ)
    (hf : ∀ i, (f i).length = m) (n : ℕ) :
    ((List.range n).flatMap f).length = n * m := by
  induction n with
  | zero => simp
  | succ n ih =>
    rw [List.range_succ, List.flatMap_append, List.length_append, ih]
    simp [hf, Nat.succ_mul]

/-- Indexing into a `flatMap` over `List.range` with constant block length:
the element at `i * m + j` is the `j`-th element of the `i`-th block. -/
lemma flatMap_range_getElem {α : Type} (f : ℕ → List α) (m : ℕ)
    (hf : ∀ i, (f i).length = m) :
    ∀ n i j : ℕ, i < n → j < m → ((List.range n).flatMap f)[i * m + j]? = (f i)[j]? := by
  intro n
  induction n with
  | zero => intro i j hi _; exact absurd hi (Nat.not_lt_zero i)
  | succ n ih =>
    intro i j hi hj
    rw [List.range_succ, List.flatMap_append]
    rcases Nat.lt_or_ge i n with h | h
    · rw [List.getElem?_append, if_pos, ih i j h hj]
      rw [flatMap_range_length f m hf]
      calc i * m + j < i * m + m := by omega
        _ = (i + 1) * m := by ring
        _ ≤ n * m := Nat.mul_le_mul_right m h
    · have hin : i = n := by omega
      subst hin
      rw [List.getElem?_append_right (by rw [flatMap_range_length f m hf]; omega)]
      rw [flatMap_range_length f m hf]
      simp [Nat.add_sub_cancel_left]

/-- C6: `generate_plant_sample_points` returns exactly
`n_angular * n_vertical + 2` points in angular-major, vertical-minor order,
followed by the top-center and mid-height-center points; every grid point is
at distance `radius` from the vertical axis with `z ∈ [z_min, z_max]`, the
single-row case using the mid-height. -/
theorem sample_points_spec (plant : Plant) (n_angular n_vertical : ℕ)
    (hnv : 1 ≤ n_vertical) (hz : plant.z_min ≤ plant.z_max) (hr : 0 ≤ plant.radius) :
    (generate_plant_sample_points plant n_angular n_vertical).length =
        n_angular * n_vertical + 2 ∧
    (∀ i j : ℕ, i < n_angular → j < n_vertical →
      (generate_plant_sample_points plant n_angular n_vertical)[i * n_vertical + j]? =
        some ⟨plant.center_x + plant.radius * Real.cos (2 * π * i / n_angular),
              plant.center_y + plant.radius * Real.sin (2 * π * i / n_angular),
              grid_z plant n_vertical j⟩) ∧
    (generate_plant_sample_points plant n_angular n_vertical)[n_angular * n_vertical]? =
      some ⟨plant.center_x, plant.center_y, plant.z_max⟩ ∧
    (generate_plant_sample_points plant n_angular n_vertical)[n_angular * n_vertical + 1]? =
      some ⟨plant.center_x, plant.center_y, (plant.z_min + plant.z_max) / 2⟩ ∧
    (∀ i j : ℕ, i < n_angular → j < n_vertical →
      Real.sqrt (((grid_point plant n_angular n_vertical i j).x - plant.center_x) *
          ((grid_point plant n_angular n_vertical i j).x - plant.center_x) +
        ((grid_point plant n_angular n_vertical i j).y - plant.center_y) *
          ((grid_point plant n_angular n_vertical i j).y - plant.center_y)) = plant.radius ∧
      plant.z_min ≤ (grid_point plant n_angular n_vertical i j).z ∧
      (grid_point plant n_angular n_vertical i j).z ≤ plant.z_max ∧
      (n_vertical = 1 →
        (grid_point plant n_angular n_vertical i j).z = (plant.z_min + plant.z_max) / 2)) := by
  have hlen : ∀ i : ℕ, ((List.range n_vertical).map
      fun j => grid_point plant n_angular n_vertical i j).length = n_vertical := by
    intro i
    simp
  have hgridlen : ((List.range n_angular).flatMap fun i => (List.range n_vertical).map
      fun j => grid_point plant n_angular n_vertical i j).length =
      n_angular * n_vertical :=
    flatMap_range_length _ n_vertical hlen n_angular
  refine ⟨?_, ?_, ?_, ?_, ?_⟩
  · rw [generate_plant_sample_points, List.length_append, hgridlen]
    rfl
  · intro i j hi hj
    rw [generate_plant_sample_points, List.getElem?_append,
      if_pos (by rw [hgridlen]; calc i * n_vertical + j < i * n_vertical + n_vertical := by omega
        _ = (i + 1) * n_vertical := by ring
        _ ≤ n_angular * n_vertical := Nat.mul_le_mul_right n_vertical hi),
      flatMap_range_getElem _ n_vertical hlen n_angular i j hi hj]
    rw [List.getElem?_map]
    simp [List.getElem?_range hj, grid_point]
  · rw [generate_plant_sample_points, List.getElem?_append_right (le_of_eq hgridlen),
      hgridlen]
    simp
  · rw [generate_plant_sample_points,
      List.getElem?_append_right (by rw [hgridlen]; omega), hgridlen]
    simp
  · intro i j hi hj
    refine ⟨?_, ?_, ?_, ?_⟩
    · have h1 : Real.cos (2 * π * i / n_angular) ^ 2 +
          Real.sin (2 * π * i / n_angular) ^ 2 = 1 := Real.cos_sq_add_sin_sq _
      have hsum : ((grid_point plant n_angular n_vertical i j).x - plant.center_x) *
            ((grid_point plant n_angular n_vertical i j).x - plant.center_x) +
          ((grid_point plant n_angular n_vertical i j).y - plant.center_y) *
            ((grid_point plant n_angular n_vertical i j).y - plant.center_y) =
          plant.radius * plant.radius := by
        simp only [grid_point]
        linear_combination plant.radius ^ 2 * h1
      rw [hsum, Real.sqrt_mul_self hr]
    · simp only [grid_point, grid_z]
      by_cases hv : 1 < n_vertical
      · rw [if_pos hv]
        have hpos : (0 : ℝ) < (n_vertical : ℝ) - 1 := by
          have : (2 : ℝ) ≤ (n_vertical : ℝ) := by exact_mod_cast hv
          linarith
        have : (0 : ℝ) ≤ (plant.z_max - plant.z_min) * j / ((n_vertical : ℝ) - 1) :=
          div_nonneg (mul_nonneg (by linarith) (Nat.cast_nonneg j)) (le_of_lt hpos)
        linarith
      · rw [if_neg hv]
        linarith
    · simp only [grid_point, grid_z]
      by_cases hv : 1 < n_vertical
      · rw [if_pos hv]
        have h2 : (2 : ℝ) ≤ (n_vertical : ℝ) := by exact_mod_cast hv
        have hpos : (0 : ℝ) < (n_vertical : ℝ) - 1 := by linarith
        have hjle : (j : ℝ) ≤ (n_vertical : ℝ) - 1 := by
          have : (j : ℝ) + 1 ≤ (n_vertical : ℝ) := by exact_mod_cast hj
          linarith
        have hb : (plant.z_max - plant.z_min) * j / ((n_vertical : ℝ) - 1) ≤
            plant.z_max - plant.z_min := by
          rw [div_le_iff₀ hpos]
          have hj0 : (0 : ℝ) ≤ (j : ℝ) := Nat.cast_nonneg j
          nlinarith
        linarith
      · rw [if_neg hv]
        linarith
    · intro hv1
      simp only [grid_point, grid_z, hv1]
      norm_num

/-- Witness for C6 at the concrete plant `(0, 0, r=1, z 0..2)` with the
default resolution 8 × 3. -/
theorem sample_points_spec_witness :
    1 ≤ 3 ∧ (0 : ℝ) ≤ 2 ∧ (0 : ℝ) ≤ 1 ∧
    ((generate_plant_sample_points ⟨0, 0, 1, 0, 2⟩ 8 3).length = 8 * 3 + 2 ∧
     (∀ i j : ℕ, i < 8 → j < 3 →
       (generate_plant_sample_points ⟨0, 0, 1, 0, 2⟩ 8 3)[i * 3 + j]? =
         some ⟨0 + 1 * Real.cos (2 * π * i / 8), 0 + 1 * Real.sin (2 * π * i / 8),
               grid_z ⟨0, 0, 1, 0, 2⟩ 3 j⟩) ∧
     (generate_plant_sample_points ⟨0, 0, 1, 0, 2⟩ 8 3)[8 * 3]? = some ⟨0, 0, 2⟩ ∧
     (generate_plant_sample_points ⟨0, 0, 1, 0, 2⟩ 8 3)[8 * 3 + 1]? =
       some ⟨0, 0, (0 + 2) / 2⟩ ∧
     (∀ i j : ℕ, i < 8 → j < 3 →
       Real.sqrt (((grid_point ⟨0, 0, 1, 0, 2⟩ 8 3 i j).x - 0) *
           ((grid_point ⟨0, 0, 1, 0, 2⟩ 8 3 i j).x - 0) +
         ((grid_point ⟨0, 0, 1, 0, 2⟩ 8 3 i j).y - 0) *
           ((grid_point ⟨0, 0, 1, 0, 2⟩ 8 3 i j).y - 0)) = 1 ∧
       (0 : ℝ) ≤ (grid_point ⟨0, 0, 1, 0, 2⟩ 8 3 i j).z ∧
       (grid_point ⟨0, 0, 1, 0, 2⟩ 8 3 i j).z ≤ 2 ∧
       (3 = 1 → (grid_point ⟨0, 0, 1, 0, 2⟩ 8 3 i j).z = (0 + 2) / 2))) :=
  ⟨by norm_num, by norm_num, by norm_num,
    sample_points_spec ⟨0, 0, 1, 0, 2⟩ 8 3 (by norm_num) (by norm_num) (by norm_num)⟩

/-- `atan2` recovers an angle in `(-π, π]` from its cosine/sine pair. -/
lemma atan2_sin_cos {θ : ℝ} (h : θ ∈ Set.Ioc (-π) π) :
    atan2 (Real.sin θ) (Real.cos θ) = θ := by
  rw [atan2]
  have hc : ((Real.cos θ : ℂ) + (Real.sin θ : ℂ) * Complex.I) =
      Complex.cos θ + Complex.sin θ * Complex.I := by
    rw [Complex.ofReal_cos, Complex.ofReal_sin]
  rw [hc, Complex.arg_cos_add_sin_mul_I h]

/-- `atan2` is invariant under scaling both arguments by a positive real. -/
lemma atan2_mul_pos {r : ℝ} (x y : ℝ) (hr : 0 < r) :
    atan2 (r * y) (r * x) = atan2 y x := by
  rw [atan2, atan2]
  have hc : ((r * x : ℝ) : ℂ) + ((r * y : ℝ) : ℂ) * Complex.I =
      (r : ℂ) * ((x : ℂ) + (y : ℂ) * Complex.I) := by
    push_cast
    ring
  rw [hc, Complex.arg_real_mul _ hr]

/-- Converting radians back to degrees is the identity. -/
lemma degrees_radians (x : ℝ) : degrees (radians x) = x := by
  rw [degrees, radians]
  field_simp

/-- C8: for azimuth in `[0, 360)` and elevation in `(-90, 90)`,
`angles_from_sun_direction` exactly inverts `sun_direction_from_angles`. -/
theorem angles_round_trip (az el : ℝ) (haz0 : 0 ≤ az) (haz1 : az < 360)
    (hel0 : -90 < el) (hel1 : el < 90) :
    angles_from_sun_direction (sun_direction_from_angles az el) = (az, el) := by
  have hπ : (0 : ℝ) < π := Real.pi_pos
  have hel_lo : -(π / 2) < radians el := by
    rw [radians]
    nlinarith [mul_pos (show (0 : ℝ) < el + 90 by linarith) hπ]
  have hel_hi : radians el < π / 2 := by
    rw [radians]
    nlinarith [mul_pos (show (0 : ℝ) < 90 - el by linarith) hπ]
  have hcose : 0 < Real.cos (radians el) :=
    Real.cos_pos_of_mem_Ioo ⟨hel_lo, hel_hi⟩
  have haz_lo : 0 ≤ radians az := by
    rw [radians]
    positivity
  have haz_hi : radians az < 2 * π := by
    rw [radians]
    nlinarith [mul_pos (show (0 : ℝ) < 360 - az by linarith) hπ]
  have hhoriz : Real.sqrt
      ((Real.cos (radians el) * Real.sin (radians az)) *
        (Real.cos (radians el) * Real.sin (radians az)) +
       (Real.cos (radians el) * Real.cos (radians az)) *
        (Real.cos (radians el) * Real.cos (radians az))) = Real.cos (radians el) := by
    have hs : (Real.cos (radians el) * Real.sin (radians az)) *
        (Real.cos (radians el) * Real.sin (radians az)) +
        (Real.cos (radians el) * Real.cos (radians az)) *
        (Real.cos (radians el) * Real.cos (radians az)) =
        Real.cos (radians el) * Real.cos (radians el) := by
      linear_combination (Real.cos (radians el)) ^ 2 * Real.sin_sq_add_cos_sq (radians az)
    rw [hs, Real.sqrt_mul_self (le_of_lt hcose)]
  have helev : degrees (atan2 (Real.sin (radians el)) (Real.cos (radians el))) = el := by
    rw [atan2_sin_cos ⟨by linarith, by linarith⟩, degrees_radians]
  have hazi : atan2 (Real.cos (radians el) * Real.sin (radians az))
      (Real.cos (radians el) * Real.cos (radians az)) =
      atan2 (Real.sin (radians az)) (Real.cos (radians az)) :=
    atan2_mul_pos _ _ hcose
  rcases le_or_lt az 180 with hle | hgt
  · have ha_hi : radians az ≤ π := by
      rw [radians]
      nlinarith [mul_nonneg (show (0 : ℝ) ≤ 180 - az by linarith) (le_of_lt hπ)]
    have hararg : atan2 (Real.sin (radians az)) (Real.cos (radians az)) = radians az :=
      atan2_sin_cos ⟨by linarith, ha_hi⟩
    have hraw : degrees (atan2 (Real.cos (radians el) * Real.sin (radians az))
        (Real.cos (radians el) * Real.cos (radians az))) = az := by
      rw [hazi, hararg, degrees_radians]
    simp only [angles_from_sun_direction, sun_direction_from_angles, hhoriz, hraw]
    rw [if_neg (not_lt.mpr haz0), helev]
  · have hcs : Real.cos (radians az) = Real.cos (radians az - 2 * π) :=
      (Real.cos_sub_two_pi (radians az)).symm
    have hss : Real.sin (radians az) = Real.sin (radians az - 2 * π) :=
      (Real.sin_sub_two_pi (radians az)).symm
    have ha_lo : -π < radians az - 2 * π := by
      have : π < radians az := by
        rw [radians]
        nlinarith [mul_pos (show (0 : ℝ) < az - 180 by linarith) hπ]
      linarith
    have hararg : atan2 (Real.sin (radians az)) (Real.cos (radians az)) =
        radians az - 2 * π := by
      rw [hcs, hss, atan2_sin_cos ⟨ha_lo, by linarith⟩]
    have hdeg : degrees (radians az - 2 * π) = az - 360 := by
      rw [degrees, radians]
      field_simp
      ring
    have hraw : degrees (atan2 (Real.cos (radians el) * Real.sin (radians az))
        (Real.cos (radians el) * Real.cos (radians az))) = az - 360 := by
      rw [hazi, hararg, hdeg]
    simp only [angles_from_sun_direction, sun_direction_from_angles, hhoriz, hraw]
    rw [if_pos (by linarith : az - 360 < 0), helev]
    norm_num

/-- Witness for C8 at the concrete pair `(45, 30)`. -/
theorem angles_round_trip_witness :
    (0 : ℝ) ≤ 45 ∧ (45 : ℝ) < 360 ∧ (-90 : ℝ) < 30 ∧ (30 : ℝ) < 90 ∧
    angles_from_sun_direction (sun_direction_from_angles 45 30) = (45, 30) :=
  ⟨by norm_num, by norm_num, by norm_num, by norm_num,
    angles_round_trip 45 30 (by norm_num) (by norm_num) (by norm_num) (by norm_num)⟩

/-- The hit points collected by the scan are exactly the sample points (in
order) through which some window illuminates. -/
lemma hit_scan_fst_eq_filter (dir : Vec3) (ws : List Window) (pts : List Vec3) :
    (hit_scan dir ws pts).1 =
      pts.filter fun p => (ws.find? fun w => ray_intersects_window p dir w).isSome := by
  induction pts with
  | nil => rfl
  | cons p rest ih =>
    rw [hit_scan, List.filter_cons]
    cases hfind : ws.find? fun w => ray_intersects_window p dir w with
    | none => simp [hfind, ih]
    | some w => simp [hfind, ih]

/-- The credited window is present iff some hit point was found. -/
lemma hit_scan_snd_none_iff (dir : Vec3) (ws : List Window) (pts : List Vec3) :
    (hit_scan dir ws pts).2 = none ↔ (hit_scan dir ws pts).1 = [] := by
  induction pts with
  | nil => simp [hit_scan]
  | cons p rest ih =>
    rw [hit_scan]
    cases hfind : ws.find? fun w => ray_intersects_window p dir w with
    | none => simpa [hfind] using ih
    | some w => simp [hfind]

/-- Two angles of `[0, 2π)` with equal cosine and sine are equal. -/
lemma cos_sin_inj {x y : ℝ} (hx0 : 0 ≤ x) (hx1 : x < 2 * π) (hy0 : 0 ≤ y)
    (hy1 : y < 2 * π) (hc : Real.cos x = Real.cos y) (hs : Real.sin x = Real.sin y) :
    x = y := by
  have hπ : (0 : ℝ) < π := Real.pi_pos
  have h1 : Real.cos (x - y) = 1 := by
    rw [Real.cos_sub, hc, hs]
    linear_combination Real.sin_sq_add_cos_sq y
  obtain ⟨n, hn⟩ := (Real.cos_eq_one_iff (x - y)).mp h1
  have hn1 : (n : ℝ) < 1 := by nlinarith
  have hn2 : (-1 : ℝ) < (n : ℝ) := by nlinarith
  have hn0 : n = 0 := by
    have h1' : n < 1 := by exact_mod_cast hn1
    have h2' : -1 < n := by exact_mod_cast hn2
    omega
  rw [hn0] at hn
  push_cast at hn
  linarith

/-- The angular positions `2πi/n` of the sampling grid lie in `[0, 2π)`. -/
lemma grid_angle_mem {na i : ℕ} (hi : i < na) :
    0 ≤ 2 * π * i / na ∧ 2 * π * i / na < 2 * π := by
  have hπ : (0 : ℝ) < π := Real.pi_pos
  have hna : (0 : ℝ) < (na : ℝ) := by
    have : 0 < na := Nat.lt_of_le_of_lt (Nat.zero_le i) hi
    exact_mod_cast this
  constructor
  · positivity
  · rw [div_lt_iff₀ hna]
    have : (i : ℝ) < (na : ℝ) := by exact_mod_cast hi
    nlinarith

/-- Distinct angular indices give distinct grid angles (hence points). -/
lemma grid_angle_index_inj {na i i' : ℕ} (hi : i < na) (hi' : i' < na)
    (hc : Real.cos (2 * π * i / na) = Real.cos (2 * π * i' / na))
    (hs : Real.sin (2 * π * i / na) = Real.sin (2 * π * i' / na)) : i = i' := by
  have hπ : (0 : ℝ) < π := Real.pi_pos
  have hna : (0 : ℝ) < (na : ℝ) := by
    have : 0 < na := Nat.lt_of_le_of_lt (Nat.zero_le i) hi
    exact_mod_cast this
  have hb := grid_angle_mem hi
  have hb' := grid_angle_mem hi'
  have heq := cos_sin_inj hb.1 hb.2 hb'.1 hb'.2 hc hs
  have : (i : ℝ) = (i' : ℝ) := by
    have h2 : 2 * π * i = 2 * π * i' := by
      have := div_eq_div_iff (ne_of_gt hna) (ne_of_gt hna) |>.mp heq
      nlinarith [this]
    nlinarith
  exact_mod_cast this

/-- Distinct vertical indices give distinct grid heights. -/
lemma grid_z_inj (plant : Plant) (hz : plant.z_min < plant.z_max) {nv j j' : ℕ}
    (hj : j < nv) (hj' : j' < nv)
    (h : grid_z plant nv j = grid_z plant nv j') : j = j' := by
  rcases Nat.lt_or_ge 1 nv with hv | hv
  · rw [grid_z, if_pos hv, grid_z, if_pos hv, add_right_inj] at h
    have hpos : (0 : ℝ) < (nv : ℝ) - 1 := by
      have : (2 : ℝ) ≤ (nv : ℝ) := by exact_mod_cast hv
      linarith
    have hΔ : (0 : ℝ) < plant.z_max - plant.z_min := by linarith
    have h2 := (div_eq_div_iff (ne_of_gt hpos) (ne_of_gt hpos)).mp h
    have h3 : (plant.z_max - plant.z_min) * j = (plant.z_max - plant.z_min) * j' :=
      mul_right_cancel₀ (ne_of_gt hpos) h2
    have : (j : ℝ) = (j' : ℝ) := mul_left_cancel₀ (ne_of_gt hΔ) h3
    exact_mod_cast this
  · omega

/-- For a non-degenerate plant the generated sample points are pairwise
distinct. -/
lemma sample_points_nodup (plant : Plant) (na nv : ℕ)
    (hr : 0 < plant.radius) (hz : plant.z_min < plant.z_max) :
    (generate_plant_sample_points plant na nv).Nodup := by
  rw [generate_plant_sample_points, List.nodup_append]
  refine ⟨?_, ?_, ?_⟩
  · rw [List.nodup_flatMap]
    constructor
    · intro i _
      refine List.Nodup.map_on ?_ (List.nodup_range nv)
      intro j hj j' hj' heq
      exact grid_z_inj plant hz (List.mem_range.mp hj) (List.mem_range.mp hj')
        (congrArg Vec3.z heq)
    · refine List.Pairwise.imp_of_mem ?_ (List.pairwise_lt_range na)
      intro i i' hi hi' hlt x hxi hxi'
      rw [List.mem_map] at hxi hxi'
      obtain ⟨j, hj, hxj⟩ := hxi
      obtain ⟨j', hj', hxj'⟩ := hxi'
      have heq : grid_point plant na nv i j = grid_point plant na nv i' j' := by
        rw [hxj, hxj']
      have hxc := congrArg Vec3.x heq
      have hyc := congrArg Vec3.y heq
      simp only [grid_point] at hxc hyc
      have hc : Real.cos (2 * π * i / na) = Real.cos (2 * π * i' / na) :=
        mul_left_cancel₀ (ne_of_gt hr) (by linarith)
      have hs : Real.sin (2 * π * i / na) = Real.sin (2 * π * i' / na) :=
        mul_left_cancel₀ (ne_of_gt hr) (by linarith)
      have := grid_angle_index_inj (List.mem_range.mp hi) (List.mem_range.mp hi') hc hs
      omega
  · simp only [List.nodup_cons, List.mem_singleton, List.not_mem_nil, not_false_iff,
      List.nodup_nil, and_true]
    intro h
    have := congrArg Vec3.z h
    simp only at this
    linarith
  · intro x hx hx2
    rw [List.mem_flatMap] at hx
    obtain ⟨i, hi, hxi⟩ := hx
    rw [List.mem_map] at hxi
    obtain ⟨j, hj, hxj⟩ := hxi
    have hxy : x.x = plant.center_x ∧ x.y = plant.center_y := by
      rcases List.mem_cons.mp hx2 with h | h
      · rw [h]
        exact ⟨rfl, rfl⟩
      · rcases List.mem_cons.mp h with h' | h'
        · rw [h']
          exact ⟨rfl, rfl⟩
        · exact absurd h' (List.not_mem_nil x)
    rw [← hxj] at hxy
    simp only [grid_point] at hxy
    have hc0 : Real.cos (2 * π * i / na) = 0 := by
      have h1 : plant.radius * Real.cos (2 * π * i / na) = 0 := by linarith [hxy.1]
      rcases mul_eq_zero.mp h1 with h | h
      · exact absurd h (ne_of_gt hr)
      · exact h
    have hs0 : Real.sin (2 * π * i / na) = 0 := by
      have h1 : plant.radius * Real.sin (2 * π * i / na) = 0 := by linarith [hxy.2]
      rcases mul_eq_zero.mp h1 with h | h
      · exact absurd h (ne_of_gt hr)
      · exact h
    have := Real.sin_sq_add_cos_sq (2 * π * i / na)
    rw [hc0, hs0] at this
    norm_num at this

/-- C10: every `HitResult` of `check_sun_hits_plant` (for a non-degenerate
plant) is internally consistent: `is_hit` holds iff `hit_points` is non-empty
iff `window_id` is set; on a hit the reason is empty; on a miss the window id
and hit points are empty and the reason is one of the two codes; and
`hit_points` is a duplicate-free subsequence of the generated sample points in
generation order. -/
theorem hit_result_invariants (az el : ℝ) (plant : Plant) (windows : List Window)
    (na nv : ℕ) (w1 : ℝ) (hr : 0 < plant.radius) (hz : plant.z_min < plant.z_max) :
    ((check_sun_hits_plant az el plant windows na nv w1).is_hit = true ↔
      (check_sun_hits_plant az el plant windows na nv w1).hit_points ≠ []) ∧
    ((check_sun_hits_plant az el plant windows na nv w1).is_hit = true ↔
      (check_sun_hits_plant az el plant windows na nv w1).window_id.isSome = true) ∧
    ((check_sun_hits_plant az el plant windows na nv w1).is_hit = true →
      (check_sun_hits_plant az el plant windows na nv w1).reason = none) ∧
    ((check_sun_hits_plant az el plant windows na nv w1).is_hit = false →
      (check_sun_hits_plant az el plant windows na nv w1).window_id = none ∧
      (check_sun_hits_plant az el plant windows na nv w1).hit_points = [] ∧
      ((check_sun_hits_plant az el plant windows na nv w1).reason =
          some "sun_below_horizon" ∨
        (check_sun_hits_plant az el plant windows na nv w1).reason =
          some "no_window_path")) ∧
    (check_sun_hits_plant az el plant windows na nv w1).hit_points.Sublist
      (generate_plant_sample_points plant na nv) ∧
    (check_sun_hits_plant az el plant windows na nv w1).hit_points.Nodup := by
  rw [check_sun_hits_plant]
  by_cases hel : el ≤ 0
  · rw [if_pos hel]
    simp
  · rw [if_neg hel]
    simp only []
    set dir := sun_direction_simplified az el w1 with hdir
    set pts := generate_plant_sample_points plant na nv with hpts
    by_cases hempty : (hit_scan dir windows pts).1.isEmpty
    · rw [if_pos hempty]
      simp
    · rw [if_neg hempty]
      have hne : (hit_scan dir windows pts).1 ≠ [] := by
        intro h
        rw [h] at hempty
        exact hempty rfl
      have hsub : (hit_scan dir windows pts).1.Sublist pts := by
        rw [hit_scan_fst_eq_filter]
        exact List.filter_sublist pts
      refine ⟨by simp [hne], ?_, by simp, by simp, hsub,
        hsub.nodup (sample_points_nodup plant na nv hr hz)⟩
      simp only [true_iff]
      rcases ho : (hit_scan dir windows pts).2 with _ | w
      · exact absurd ((hit_scan_snd_none_iff dir windows pts).mp ho) hne
      · simp

/-- Witness for C10 at a concrete configuration. -/
theorem hit_result_invariants_witness :
    (0 : ℝ) < 1 ∧ (0 : ℝ) < 2 ∧
    ((check_sun_hits_plant 180 45 ⟨0, 2, 1, 0, 2⟩
        [⟨"w", ⟨0, 0, 1⟩, 2, 2, 180, 0, none⟩] 1 1 180).is_hit = true ↔
      (check_sun_hits_plant 180 45 ⟨0, 2, 1, 0, 2⟩
        [⟨"w", ⟨0, 0, 1⟩, 2, 2, 180, 0, none⟩] 1 1 180).hit_points ≠ []) := by
  refine ⟨by norm_num, by norm_num, ?_⟩
  exact (hit_result_invariants 180 45 ⟨0, 2, 1, 0, 2⟩
    [⟨"w", ⟨0, 0, 1⟩, 2, 2, 180, 0, none⟩] 1 1 180 (by norm_num) (by norm_num)).1

/-- Converting degrees back to radians is the identity. -/
lemma radians_degrees (x : ℝ) : radians (degrees x) = x := by
  rw [radians, degrees]
  field_simp

/-- The concrete test elevation whose sine and cosine are `3/5` and `4/5`. -/
def test_elevation : ℝ := degrees (Real.arctan (3/4))

lemma sin_test_elevation : Real.sin (radians test_elevation) = 3/5 := by
  rw [test_elevation, radians_degrees, Real.sin_arctan]
  rw [show (1 : ℝ) + (3/4) ^ 2 = (5/4) ^ 2 by norm_num, Real.sqrt_sq (by norm_num)]
  norm_num

lemma cos_test_elevation : Real.cos (radians test_elevation) = 4/5 := by
  rw [test_elevation, radians_degrees, Real.cos_arctan]
  rw [show (1 : ℝ) + (3/4) ^ 2 = (5/4) ^ 2 by norm_num, Real.sqrt_sq (by norm_num)]
  norm_num

lemma test_elevation_pos : 0 < test_elevation := by
  rw [test_elevation, degrees]
  have harc : 0 < Real.arctan (3/4) := by
    rw [← Real.arctan_zero]
    exact Real.arctan_strictMono (by norm_num)
  positivity

lemma test_elevation_not_le : ¬ test_elevation ≤ 0 := not_le.mpr test_elevation_pos

/-- Direction toward the sun at azimuth 180 in a frame with zero rotation. -/
lemma dir_at_180 : sun_direction_from_angles 180 test_elevation = ⟨0, -(4/5), 3/5⟩ := by
  rw [sun_direction_from_angles]
  have h180 : radians 180 = π := by rw [radians]; ring
  rw [h180, Real.sin_pi, Real.cos_pi, sin_test_elevation, cos_test_elevation]
  norm_num

/-- The simplified frame with reference azimuth 180 applies no rotation. -/
lemma dir_simplified_180 :
    sun_direction_simplified 180 test_elevation 180 = ⟨0, -(4/5), 3/5⟩ := by
  rw [sun_direction_simplified, show (180 : ℝ) - (180 - 180) = 180 by norm_num, dir_at_180]

/-- With the default reference wall azimuth 210 the frame rotates by 30°, so
azimuth 180 becomes 150 and the direction picks up a lateral component. -/
lemma dir_simplified_210 :
    sun_direction_simplified 180 test_elevation 210 =
      ⟨2/5, -(2/5 * Real.sqrt 3), 3/5⟩ := by
  rw [sun_direction_simplified, show (180 : ℝ) - (210 - 180) = 150 by norm_num,
    sun_direction_from_angles]
  have h150 : radians 150 = π - π / 6 := by rw [radians]; ring
  rw [h150, Real.sin_pi_sub, Real.cos_pi_sub, Real.sin_pi_div_six, Real.cos_pi_div_six,
    sin_test_elevation, cos_test_elevation]
  norm_num
  ring

lemma coord_one (v : Vec3) : v.coord 1 = v.y := rfl

lemma coord_zero (v : Vec3) : v.coord 0 = v.x := rfl

/-- Evaluation of `ray_window_intersection` on a thin wall-1 window
(`axis = "x"`, plane `y = center.y`): hit case. -/
lemma thin_x_window_hit (o d : Vec3) (w : Window) (ε : ℝ)
    (hax : w.axis = some "x") (hth : w.wall_thickness ≤ 0)
    (hside : 0 < dot3 d w.normal) (hpar : ¬ |d.y| < ε)
    (ht : ¬ (w.center.y - o.y) / d.y < 0)
    (hh : |o.x + (w.center.y - o.y) / d.y * d.x - w.center.x| ≤ w.width / 2 + ε)
    (hv : |o.z + (w.center.y - o.y) / d.y * d.z - w.center.z| ≤ w.height / 2 + ε) :
    ray_intersects_window o d w ε = true := by
  have hpa : window_plane_axis w = 1 := by
    rw [window_plane_axis, if_pos hax]
  rw [ray_intersects_window, ray_window_intersection, if_neg (not_le.mpr hside)]
  simp only [hpa, coord_one, if_pos hth]
  rw [intersect_axis_aligned_plane]
  simp only [coord_one, if_neg hpar, if_neg ht]
  rw [if_pos]
  constructor
  · simpa [Vec3.add, Vec3.smul] using hh
  · simpa [Vec3.add, Vec3.smul] using hv

/-- Evaluation of `ray_window_intersection` on a thin wall-1 window: bounds
miss case. -/
lemma thin_x_window_miss (o d : Vec3) (w : Window) (ε : ℝ)
    (hax : w.axis = some "x") (hth : w.wall_thickness ≤ 0)
    (hmiss : ¬ (|o.x + (w.center.y - o.y) / d.y * d.x - w.center.x| ≤ w.width / 2 + ε ∧
      |o.z + (w.center.y - o.y) / d.y * d.z - w.center.z| ≤ w.height / 2 + ε)) :
    ray_intersects_window o d w ε = false := by
  have hpa : window_plane_axis w = 1 := by
    rw [window_plane_axis, if_pos hax]
  rw [ray_intersects_window, ray_window_intersection]
  by_cases hside : dot3 d w.normal ≤ 0
  · rw [if_pos hside]
  · rw [if_neg hside]
    simp only [hpa, coord_one, if_pos hth]
    rw [intersect_axis_aligned_plane]
    simp only [coord_one]
    by_cases hpar : |d.y| < ε
    · rw [if_pos hpar]
    · rw [if_neg hpar]
      by_cases ht : (w.center.y - o.y) / d.y < 0
      · rw [if_pos ht]
      · rw [if_neg ht, if_neg]
        intro hc
        exact hmiss ⟨by simpa [Vec3.add, Vec3.smul] using hc.1,
          by simpa [Vec3.add, Vec3.smul] using hc.2⟩

/-- Test plant: cylinder of radius 1 centered at `(0, 2)`, `z ∈ [0, 2]`. -/
def plantC : Plant := ⟨0, 2, 1, 0, 2⟩

/-- Test window "A", first in list order, centered at `(0, 0, 3.5)`. -/
def windowA : Window := ⟨"A", ⟨0, 0, 7/2⟩, 1, 1, 180, 0, some "x"⟩

/-- Test window "B", second in list order, centered at `(1, 0, 2.5)`. -/
def windowB : Window := ⟨"B", ⟨1, 0, 5/2⟩, 1, 1, 180, 0, some "x"⟩

lemma sample_points_plantC :
    generate_plant_sample_points plantC 1 1 = [⟨1, 2, 1⟩, ⟨0, 2, 2⟩, ⟨0, 2, 1⟩] := by
  rw [generate_plant_sample_points]
  simp [List.range_succ, grid_point, grid_z, plantC]

lemma eval_p0_A : ray_intersects_window ⟨1, 2, 1⟩ ⟨0, -(4/5), 3/5⟩ windowA (1e-10) = false :=
  thin_x_window_miss _ _ _ _ rfl (by norm_num [windowA, abs_of_nonneg]) (by norm_num [windowA, abs_of_nonneg])

lemma eval_p0_B : ray_intersects_window ⟨1, 2, 1⟩ ⟨0, -(4/5), 3/5⟩ windowB (1e-10) = true := by
  refine thin_x_window_hit _ _ _ _ rfl (by norm_num [windowB, abs_of_nonneg]) ?_ (by norm_num [windowB, abs_of_nonneg])
    (by norm_num [windowB, abs_of_nonneg]) (by norm_num [windowB, abs_of_nonneg]) (by norm_num [windowB, abs_of_nonneg])
  rw [normal_of_azimuth_180 rfl]
  norm_num [dot3]

lemma eval_p1_A : ray_intersects_window ⟨0, 2, 2⟩ ⟨0, -(4/5), 3/5⟩ windowA (1e-10) = true := by
  refine thin_x_window_hit _ _ _ _ rfl (by norm_num [windowA, abs_of_nonneg]) ?_ (by norm_num [windowA, abs_of_nonneg])
    (by norm_num [windowA, abs_of_nonneg]) (by norm_num [windowA, abs_of_nonneg]) (by norm_num [windowA, abs_of_nonneg])
  rw [normal_of_azimuth_180 rfl]
  norm_num [dot3]

lemma eval_p2_A : ray_intersects_window ⟨0, 2, 1⟩ ⟨0, -(4/5), 3/5⟩ windowA (1e-10) = false :=
  thin_x_window_miss _ _ _ _ rfl (by norm_num [windowA, abs_of_nonneg]) (by norm_num [windowA, abs_of_nonneg])

lemma eval_p2_B : ray_intersects_window ⟨0, 2, 1⟩ ⟨0, -(4/5), 3/5⟩ windowB (1e-10) = false :=
  thin_x_window_miss _ _ _ _ rfl (by norm_num [windowB, abs_of_nonneg]) (by norm_num [windowB, abs_of_nonneg])

lemma hit_scan_C3 :
    hit_scan ⟨0, -(4/5), 3/5⟩ [windowA, windowB] [⟨1, 2, 1⟩, ⟨0, 2, 2⟩, ⟨0, 2, 1⟩] =
      ([⟨1, 2, 1⟩, ⟨0, 2, 2⟩], some "B") := by
  rw [hit_scan, hit_scan, hit_scan, hit_scan]
  simp only [List.find?, eval_p0_A, eval_p0_B, eval_p1_A, eval_p2_A, eval_p2_B]
  rfl

lemma check_C3_eval :
    check_sun_hits_plant 180 test_elevation plantC [windowA, windowB] 1 1 180 =
      { is_hit := true, window_id := some "B", hit_points := [⟨1, 2, 1⟩, ⟨0, 2, 2⟩],
        sun_direction := some ⟨0, -(4/5), 3/5⟩ } := by
  rw [check_sun_hits_plant, if_neg test_elevation_not_le]
  simp only [dir_simplified_180, sample_points_plantC, hit_scan_C3]
  rfl

/-- The value C3's wording prescribes: the id of the first opening, by
caller-supplied list order, through which ANY sample point is illuminated. -/
def first_window_illuminating_any (sun_dir : Vec3) (windows : List Window)
    (pts : List Vec3) : Option String :=
  (windows.find? fun w => pts.any fun p => ray_intersects_window p sun_dir w).map Window.id

lemma claimed_first_window_C3 :
    first_window_illuminating_any ⟨0, -(4/5), 3/5⟩ [windowA, windowB]
      [⟨1, 2, 1⟩, ⟨0, 2, 2⟩, ⟨0, 2, 1⟩] = some "A" := by
  rw [first_window_illuminating_any]
  simp only [List.find?, List.any_cons, List.any_nil, eval_p0_A, eval_p1_A]
  rfl

/-- C3 counterexample: at a concrete input the orchestrator reports a hit and
credits window "B" (the window of the first illuminated sample point), while
the first opening in list order through which ANY sample point is illuminated
is window "A" — so the claim's description of `window_id` is false. -/
theorem first_window_claim_counterexample :
    (check_sun_hits_plant 180 test_elevation plantC [windowA, windowB] 1 1 180).is_hit
        = true ∧
    (check_sun_hits_plant 180 test_elevation plantC [windowA, windowB] 1 1 180).window_id
        = some "B" ∧
    first_window_illuminating_any (sun_direction_simplified 180 test_elevation 180)
        [windowA, windowB] (generate_plant_sample_points plantC 1 1) = some "A" ∧
    (check_sun_hits_plant 180 test_elevation plantC [windowA, windowB] 1 1 180).window_id ≠
      first_window_illuminating_any (sun_direction_simplified 180 test_elevation 180)
        [windowA, windowB] (generate_plant_sample_points plantC 1 1) := by
  rw [check_C3_eval, dir_simplified_180, sample_points_plantC, claimed_first_window_C3]
  exact ⟨rfl, rfl, rfl, by simp⟩

/-- The credited window of the scan is the first window (in list order)
illuminating the first illuminated point (in sample order). -/
lemma hit_scan_first_hit (dir : Vec3) (ws : List Window) :
    ∀ pts : List Vec3, (hit_scan dir ws pts).1 ≠ [] →
    ∃ (k : ℕ) (p : Vec3), pts[k]? = some p ∧
      (∀ k' p', k' < k → pts[k']? = some p' →
        ws.find? (fun w => ray_intersects_window p' dir w) = none) ∧
      (ws.find? fun w => ray_intersects_window p dir w).isSome = true ∧
      (hit_scan dir ws pts).2 =
        (ws.find? fun w => ray_intersects_window p dir w).map Window.id := by
  intro pts
  induction pts with
  | nil => intro h; exact absurd rfl h
  | cons p rest ih =>
    intro hne
    cases hfind : ws.find? fun w => ray_intersects_window p dir w with
    | some w =>
      refine ⟨0, p, by simp, ?_, ?_, ?_⟩
      · intro k' p' hk' _
        omega
      · rw [hfind]
        rfl
      · rw [hfind]
        simp [hit_scan, hfind]
    | none =>
      have htail : (hit_scan dir ws rest).1 ≠ [] := by
        intro h
        apply hne
        simp [hit_scan, hfind, h]
      obtain ⟨k, q, hq, hbefore, hsome, hid⟩ := ih htail
      refine ⟨k + 1, q, by simpa using hq, ?_, hsome, ?_⟩
      · intro k' p' hk' hp'
        cases k' with
        | zero =>
          have : p = p' := by simpa using hp'
          rw [← this]
          exact hfind
        | succ k'' =>
          exact hbefore k'' p' (by omega) (by simpa using hp')
      · rw [← hid]
        simp [hit_scan, hfind]

/-- C3 (amended): when `check_sun_hits_plant` reports a hit, `window_id` is
the id of the first opening, by caller-supplied list order, that illuminates
the FIRST illuminated sample point in generation order (all earlier sample
points being illuminated by no opening) — not the first opening that
illuminates just any sample point. -/
theorem window_id_first_hit_point (az el : ℝ) (plant : Plant) (windows : List Window)
    (na nv : ℕ) (w1 : ℝ)
    (hhit : (check_sun_hits_plant az el plant windows na nv w1).is_hit = true) :
    ∃ (k : ℕ) (p : Vec3), (generate_plant_sample_points plant na nv)[k]? = some p ∧
      (∀ k' p', k' < k → (generate_plant_sample_points plant na nv)[k']? = some p' →
        windows.find? (fun w => ray_intersects_window p'
          (sun_direction_simplified az el w1) w) = none) ∧
      (windows.find? fun w => ray_intersects_window p
        (sun_direction_simplified az el w1) w).isSome = true ∧
      (check_sun_hits_plant az el plant windows na nv w1).window_id =
        (windows.find? fun w => ray_intersects_window p
          (sun_direction_simplified az el w1) w).map Window.id := by
  rw [check_sun_hits_plant] at hhit ⊢
  by_cases hel : el ≤ 0
  · rw [if_pos hel] at hhit
    simp at hhit
  · rw [if_neg hel] at hhit ⊢
    by_cases hempty : (hit_scan (sun_direction_simplified az el w1) windows
        (generate_plant_sample_points plant na nv)).1.isEmpty
    · rw [if_pos hempty] at hhit
      simp at hhit
    · rw [if_neg hempty]
      have hne : (hit_scan (sun_direction_simplified az el w1) windows
          (generate_plant_sample_points plant na nv)).1 ≠ [] := by
        intro h
        rw [h] at hempty
        exact hempty rfl
      obtain ⟨k, p, hk, hbefore, hsome, hid⟩ :=
        hit_scan_first_hit (sun_direction_simplified az el w1) windows
          (generate_plant_sample_points plant na nv) hne
      exact ⟨k, p, hk, hbefore, hsome, hid⟩

/-- Witness for the amended C3 at the concrete configuration of the
counterexample. -/
theorem window_id_first_hit_point_witness :
    (check_sun_hits_plant 180 test_elevation plantC [windowA, windowB] 1 1 180).is_hit
        = true ∧
    (∃ (k : ℕ) (p : Vec3), (generate_plant_sample_points plantC 1 1)[k]? = some p ∧
      (∀ k' p', k' < k → (generate_plant_sample_points plantC 1 1)[k']? = some p' →
        List.find? (fun w => ray_intersects_window p'
          (sun_direction_simplified 180 test_elevation 180) w) [windowA, windowB] = none) ∧
      (List.find? (fun w => ray_intersects_window p
        (sun_direction_simplified 180 test_elevation 180) w) [windowA, windowB]).isSome
          = true ∧
      (check_sun_hits_plant 180 test_elevation plantC [windowA, windowB] 1 1 180).window_id =
        (List.find? (fun w => ray_intersects_window p
          (sun_direction_simplified 180 test_elevation 180) w) [windowA, windowB]).map
            Window.id) := by
  have hhit : (check_sun_hits_plant 180 test_elevation plantC
      [windowA, windowB] 1 1 180).is_hit = true := by
    rw [check_C3_eval]
  exact ⟨hhit,
    window_id_first_hit_point 180 test_elevation plantC [windowA, windowB] 1 1 180 hhit⟩

lemma sqrt_three_gt_one : (1 : ℝ) < Real.sqrt 3 := by
  rw [show (1 : ℝ) = Real.sqrt 1 from Real.sqrt_one.symm]
  exact Real.sqrt_lt_sqrt (by norm_num) (by norm_num)

lemma sample_points_plantC_01 :
    generate_plant_sample_points plantC 0 1 = [⟨0, 2, 2⟩, ⟨0, 2, 1⟩] := by
  rw [generate_plant_sample_points]
  simp [plantC]

/-- Under the rotated frame of the default reference azimuth 210, the ray
from the top-center sample point misses window "A" laterally. -/
lemma eval_c4_top : ray_intersects_window ⟨0, 2, 2⟩
    ⟨2/5, -(2/5 * Real.sqrt 3), 3/5⟩ windowA (1e-10) = false := by
  refine thin_x_window_miss _ _ _ _ rfl (by norm_num [windowA, abs_of_nonneg]) ?_
  intro hc
  have h1 := hc.1
  have hz : Real.sqrt 3 ≠ 0 := by positivity
  have h3 : Real.sqrt 3 * Real.sqrt 3 = 3 := Real.mul_self_sqrt (by norm_num)
  have hval : (0 : ℝ) + (Vec3.y (Window.center windowA) - 2) / (-(2/5 * Real.sqrt 3)) *
      (2/5) - Vec3.x (Window.center windowA) = 2 * Real.sqrt 3 / 3 := by
    rw [show Vec3.y (Window.center windowA) = 0 from rfl,
      show Vec3.x (Window.center windowA) = 0 from rfl]
    field_simp
    linear_combination (-20 : ℝ) * h3
  rw [hval] at h1
  have habs : |2 * Real.sqrt 3 / 3| = 2 * Real.sqrt 3 / 3 := abs_of_nonneg (by positivity)
  rw [habs] at h1
  rw [show Window.width windowA = 1 from rfl] at h1
  nlinarith [sqrt_three_gt_one]

/-- Same miss from the mid-height-center sample point. -/
lemma eval_c4_mid : ray_intersects_window ⟨0, 2, 1⟩
    ⟨2/5, -(2/5 * Real.sqrt 3), 3/5⟩ windowA (1e-10) = false := by
  refine thin_x_window_miss _ _ _ _ rfl (by norm_num [windowA, abs_of_nonneg]) ?_
  intro hc
  have h1 := hc.1
  have hz : Real.sqrt 3 ≠ 0 := by positivity
  have h3 : Real.sqrt 3 * Real.sqrt 3 = 3 := Real.mul_self_sqrt (by norm_num)
  have hval : (0 : ℝ) + (Vec3.y (Window.center windowA) - 2) / (-(2/5 * Real.sqrt 3)) *
      (2/5) - Vec3.x (Window.center windowA) = 2 * Real.sqrt 3 / 3 := by
    rw [show Vec3.y (Window.center windowA) = 0 from rfl,
      show Vec3.x (Window.center windowA) = 0 from rfl]
    field_simp
    linear_combination (-20 : ℝ) * h3
  rw [hval] at h1
  have habs : |2 * Real.sqrt 3 / 3| = 2 * Real.sqrt 3 / 3 := abs_of_nonneg (by positivity)
  rw [habs] at h1
  rw [show Window.width windowA = 1 from rfl] at h1
  nlinarith [sqrt_three_gt_one]

lemma detailed_C4_eval :
    get_detailed_hit_info 180 test_elevation plantC [windowA] 0 1 =
      { is_hit := true, window_id := some "A" } := by
  rw [get_detailed_hit_info, if_neg test_elevation_not_le]
  simp only [dir_at_180, sample_points_plantC_01]
  rw [detail_scan]
  simp only [List.find?, eval_p1_A]
  rfl

lemma check_C4_eval :
    check_sun_hits_plant 180 test_elevation plantC [windowA] 0 1 210 =
      { is_hit := false, sun_direction := some ⟨2/5, -(2/5 * Real.sqrt 3), 3/5⟩,
        reason := some "no_window_path" } := by
  rw [check_sun_hits_plant, if_neg test_elevation_not_le]
  simp only [dir_simplified_210, sample_points_plantC_01]
  rw [hit_scan, hit_scan, hit_scan]
  simp only [List.find?, eval_c4_top, eval_c4_mid]
  rfl

/-- C4 counterexample: with the orchestrator's default reference wall azimuth
(210°), `get_detailed_hit_info` — which skips the simplified-frame rotation —
reports a hit at a concrete input where `check_sun_hits_plant` reports a miss,
and the two sun-direction vectors differ. -/
theorem detail_view_rotation_counterexample :
    (get_detailed_hit_info 180 test_elevation plantC [windowA] 0 1).is_hit = true ∧
    (check_sun_hits_plant 180 test_elevation plantC [windowA] 0 1 210).is_hit = false ∧
    sun_direction_from_angles 180 test_elevation ≠
      sun_direction_simplified 180 test_elevation 210 := by
  refine ⟨by rw [detailed_C4_eval], by rw [check_C4_eval], ?_⟩
  rw [dir_at_180, dir_simplified_210]
  intro h
  have hx := congrArg Vec3.x h
  simp only at hx
  norm_num at hx

/-- With reference wall azimuth 180° the simplified frame applies no
rotation. -/
lemma dir_simplified_no_rotation (az el : ℝ) :
    sun_direction_simplified az el 180 = sun_direction_from_angles az el := by
  rw [sun_direction_simplified]
  norm_num

/-- The two scans agree on whether anything was hit. -/
lemma scan_agree (dir : Vec3) (ws : List Window) :
    ∀ pts : List Vec3, ((hit_scan dir ws pts).1 = [] ↔ (detail_scan dir ws pts).1 = false) := by
  intro pts
  induction pts with
  | nil => simp [hit_scan, detail_scan]
  | cons p rest ih =>
    cases hfind : ws.find? fun w => ray_intersects_window p dir w with
    | some w => simp [hit_scan, detail_scan, hfind]
    | none => simpa [hit_scan, detail_scan, hfind] using ih

/-- C4 (amended): the agreement between `check_sun_hits_plant` and
`get_detailed_hit_info` holds exactly when the orchestrator applies no
rotation, i.e. with reference wall azimuth 180° — for every azimuth,
elevation, plant, openings and resolution the two then agree on `is_hit`.
With the orchestrator's default reference azimuth 210° they can disagree,
because the debug view computes its direction without the simplified-frame
rotation. -/
theorem detail_view_agrees_when_no_rotation (az el : ℝ) (plant : Plant)
    (windows : List Window) (na nv : ℕ) :
    (check_sun_hits_plant az el plant windows na nv 180).is_hit =
      (get_detailed_hit_info az el plant windows na nv).is_hit := by
  rw [check_sun_hits_plant, get_detailed_hit_info]
  by_cases hel : el ≤ 0
  · rw [if_pos hel, if_pos hel]
  · rw [if_neg hel, if_neg hel]
    simp only [dir_simplified_no_rotation]
    by_cases h : (hit_scan (sun_direction_from_angles az el) windows
        (generate_plant_sample_points plant na nv)).1.isEmpty
    · rw [if_pos h]
      have hfalse : (detail_scan (sun_direction_from_angles az el) windows
          (generate_plant_sample_points plant na nv)).1 = false :=
        (scan_agree _ _ _).mp (List.isEmpty_iff.mp h)
      simp [hfalse]
    · rw [if_neg h]
      have hne : ¬ (hit_scan (sun_direction_from_angles az el) windows
          (generate_plant_sample_points plant na nv)).1 = [] := by
        intro hh
        exact h (by simp [hh])
      cases hb : (detail_scan (sun_direction_from_angles az el) windows
          (generate_plant_sample_points plant na nv)).1 with
      | false => exact absurd ((scan_agree _ _ _).mpr hb) hne
      | true => simp

end

end SunSim
